import Mathlib

set_option maxHeartbeats 1000000

/-! Verification development for the answer-sheet-marker marking pipeline.

The definitions below are a shallow embedding of the Python sources under
src/backend/src/answer_marker: the evaluation data model
(models/evaluation.py, models/question.py, models/answer.py), the answer
evaluator (agents/answer_evaluator.py), the scoring agent
(agents/scoring_agent.py), the QA agent (agents/qa_agent.py), the
orchestrator (core/orchestrator.py), and the answer-sheet cache of the
marking service (api/services/marking_service.py,
storage/persistent_storage.py).

Modelling conventions: Python floats carrying marks, percentages and
confidence values are embedded as rationals; Python strings are Lean
strings; Python dicts used as key-value stores are embedded as association
lists with insert-at-front update and first-match lookup, which observes
the same get/put behaviour; the free-text `details` string of a scoring
issue is replaced by the two numbers it is formatted from. The structured
output of the language-model backend is an explicit input (an oracle
function), since the backend is an external capability; every field the
Python code computes itself (identifiers, sums, caps, thresholds) is
translated directly from the source. -/

namespace AnswerMarker

/-- Evaluation of a single key concept inside an answer; models
ConceptEvaluation of models/evaluation.py. -/
structure ConceptEvaluation where
  concept : String
  present : Bool
  accuracy : String
  evidence : String
  points_earned : ℚ
  points_possible : ℚ
deriving DecidableEq

/-- Complete evaluation of one student answer; models AnswerEvaluation of
models/evaluation.py restricted to the fields the pipeline stages read
(strengths, weaknesses, misconceptions and review metadata are carried
along unchanged and never inspected, so they are elided). -/
structure AnswerEvaluation where
  question_id : String
  concepts_identified : List ConceptEvaluation
  overall_quality : String
  confidence_score : ℚ
  marks_awarded : ℚ
  max_marks : ℚ
deriving DecidableEq

/-- Sum of points earned over the concept judgements of one evaluation, the
quantity computed in answer_evaluator, scoring_agent and qa_agent alike. -/
def conceptPointsSum (e : AnswerEvaluation) : ℚ :=
  (e.concepts_identified.map (fun c => c.points_earned)).sum

/-- Score entry for one question in the final result; models QuestionScore
of models/evaluation.py. -/
structure QuestionScore where
  question_id : String
  marks_awarded : ℚ
  max_marks : ℚ
  percentage : ℚ
  quality : Option String
deriving DecidableEq

/-- Final scoring summary; models ScoringResult of models/evaluation.py. -/
structure ScoringResult where
  total_marks : ℚ
  max_marks : ℚ
  percentage : ℚ
  grade : String
  question_scores : List QuestionScore
  passed : Bool
deriving DecidableEq

/-- Letter grade from a percentage; models
ScoringAgent._calculate_grade. -/
def calculateGrade (percentage : ℚ) : String :=
  if percentage ≥ 90 then "A+"
  else if percentage ≥ 85 then "A"
  else if percentage ≥ 80 then "A-"
  else if percentage ≥ 75 then "B+"
  else if percentage ≥ 70 then "B"
  else if percentage ≥ 65 then "B-"
  else if percentage ≥ 60 then "C+"
  else if percentage ≥ 55 then "C"
  else if percentage ≥ 50 then "C-"
  else "F"

/-- Per-question mark as computed inside ScoringAgent._calculate_scores:
the concept points sum, then capped at the question maximum with min. -/
def questionMark (e : AnswerEvaluation) : ℚ :=
  min (conceptPointsSum e) e.max_marks

/-- Per-question percentage as computed inside
ScoringAgent._calculate_scores: zero when the question maximum is zero. -/
def questionPercentage (e : AnswerEvaluation) : ℚ :=
  if e.max_marks > 0 then questionMark e / e.max_marks * 100 else 0

/-- QuestionScore entry built for one evaluation inside
ScoringAgent._calculate_scores. -/
def questionScoreOf (e : AnswerEvaluation) : QuestionScore :=
  { question_id := e.question_id
    marks_awarded := questionMark e
    max_marks := e.max_marks
    percentage := questionPercentage e
    quality := some e.overall_quality }

/-- Running total of the capped per-question marks accumulated by the loop
of ScoringAgent._calculate_scores. -/
def scoresTotal (evaluations : List AnswerEvaluation) : ℚ :=
  (evaluations.map questionMark).sum

/-- Running total of the question maxima accumulated by the loop of
ScoringAgent._calculate_scores. -/
def scoresMax (evaluations : List AnswerEvaluation) : ℚ :=
  (evaluations.map (fun e => e.max_marks)).sum

/-- Overall percentage of ScoringAgent._calculate_scores, zero when the
summed maximum is not positive. -/
def overallPercentage (evaluations : List AnswerEvaluation) : ℚ :=
  if scoresMax evaluations > 0 then
    scoresTotal evaluations / scoresMax evaluations * 100
  else 0

/-- Score aggregation over the evaluation list; models
ScoringAgent._calculate_scores: per-question capped marks, summed totals,
overall percentage (zero when the maximum is zero), letter grade and the
50-percent pass mark. -/
def calculateScores (evaluations : List AnswerEvaluation) : ScoringResult :=
  { total_marks := scoresTotal evaluations
    max_marks := scoresMax evaluations
    percentage := overallPercentage evaluations
    grade := calculateGrade (overallPercentage evaluations)
    question_scores := evaluations.map questionScoreOf
    passed := decide (overallPercentage evaluations ≥ 50) }

/-- Entry point of the scoring stage; models ScoringAgent.process, which
rejects an empty (falsy) evaluation list with an error message and
otherwise answers with the calculated scores. -/
def scoringProcess (evaluations : List AnswerEvaluation) :
    Except String ScoringResult :=
  if evaluations.isEmpty then
    Except.error "No evaluations found in message content"
  else
    Except.ok (calculateScores evaluations)

/-- Value stored under a key of a QA flag details dict: the source mixes
numbers and strings there. -/
inductive QADetailValue
  | num : ℚ → QADetailValue
  | str : String → QADetailValue
deriving DecidableEq

/-- Flag raised by the QA agent; models QAFlag of models/evaluation.py. -/
structure QAFlag where
  question_id : String
  reason : String
  severity : String
  details : List (String × QADetailValue)
deriving DecidableEq

/-- Hard issue recorded by the scoring-consistency check of qa_agent; the
source represents it as a plain dict with question_id, an issue label and a
details string formatted from the awarded sum and the maximum, kept here as
the two numbers. -/
structure QAIssue where
  question_id : String
  issue : String
  awarded : ℚ
  maxMarks : ℚ
deriving DecidableEq

/-- QA summary; models QAResult of models/evaluation.py. The timestamp
field is the wall clock read when the result is constructed, embedded as an
explicit integer input. -/
structure QAResult where
  passed : Bool
  requires_human_review : Bool
  flags : List QAFlag
  issues : List QAIssue
  confidence_level : String
  consistency_score : ℚ
  recommendations : List String
  timestamp : Int
deriving DecidableEq

/-- Check 1 of qa_agent (QAAgent._check_low_confidence): flag every
evaluation with confidence below 0.6, severity high below 0.4, else
medium. -/
def checkLowConfidence (evaluations : List AnswerEvaluation) : List QAFlag :=
  evaluations.filterMap (fun e =>
    if e.confidence_score < 0.6 then
      some { question_id := e.question_id
             reason := "Low confidence score"
             severity := if e.confidence_score < 0.4 then "high" else "medium"
             details := [("confidence", QADetailValue.num e.confidence_score)] }
    else none)

/-- Check 2 of qa_agent (QAAgent._check_scoring_consistency): a hard issue
for every evaluation whose concept points sum strictly exceeds the question
maximum. -/
def checkScoringConsistency (evaluations : List AnswerEvaluation) :
    List QAIssue :=
  evaluations.filterMap (fun e =>
    if conceptPointsSum e > e.max_marks then
      some { question_id := e.question_id
             issue := "Score exceeds maximum"
             awarded := conceptPointsSum e
             maxMarks := e.max_marks }
    else none)

/-- Count of concepts judged absent although worth more than 1.0 points, as
in QAAgent._check_mandatory_concepts. -/
def missingMandatoryCount (e : AnswerEvaluation) : Nat :=
  (e.concepts_identified.filter
    (fun c => !c.present && decide (c.points_possible > 1))).length

/-- Check 3 of qa_agent (QAAgent._check_mandatory_concepts): flag when
important concepts are missing yet the quality tier is excellent or
good. -/
def checkMandatoryConcepts (evaluations : List AnswerEvaluation) :
    List QAFlag :=
  evaluations.filterMap (fun e =>
    if missingMandatoryCount e > 0 ∧
        (e.overall_quality = "excellent" ∨ e.overall_quality = "good") then
      some { question_id := e.question_id
             reason := "High score despite missing key concepts"
             severity := "medium"
             details := [("missing_count",
                           QADetailValue.num (missingMandatoryCount e : ℚ)),
                         ("quality", QADetailValue.str e.overall_quality)] }
    else none)

/-- Percentage of the awarded marks against the maximum, zero when the
maximum is not positive, as computed in checks 4 and 5 of qa_agent. -/
def awardedPercentage (e : AnswerEvaluation) : ℚ :=
  if e.max_marks > 0 then e.marks_awarded / e.max_marks * 100 else 0

/-- Check 4 of qa_agent (QAAgent._check_score_discrepancies): flag extreme
mismatch between the numeric percentage and the quality tier. -/
def checkScoreDiscrepancies (evaluations : List AnswerEvaluation) :
    List QAFlag :=
  evaluations.filterMap (fun e =>
    if awardedPercentage e ≥ 80 ∧
        (e.overall_quality = "poor" ∨ e.overall_quality = "inadequate") then
      some { question_id := e.question_id
             reason := "High score but poor quality rating"
             severity := "high"
             details := [("percentage", QADetailValue.num (awardedPercentage e)),
                         ("quality", QADetailValue.str e.overall_quality)] }
    else if awardedPercentage e < 50 ∧
        (e.overall_quality = "excellent" ∨ e.overall_quality = "good") then
      some { question_id := e.question_id
             reason := "Low score but high quality rating"
             severity := "high"
             details := [("percentage", QADetailValue.num (awardedPercentage e)),
                         ("quality", QADetailValue.str e.overall_quality)] }
    else none)

/-- Expected quality tier for a percentage, fixed bands of
QAAgent._check_quality_alignment. -/
def expectedQuality (percentage : ℚ) : String :=
  if percentage ≥ 90 then "excellent"
  else if percentage ≥ 70 then "good"
  else if percentage ≥ 50 then "satisfactory"
  else if percentage ≥ 30 then "poor"
  else "inadequate"

/-- Ordinal level of a quality tier, the quality_map of
QAAgent._check_quality_alignment with default 3 for unknown strings. -/
def qualityLevel (quality : String) : Int :=
  if quality = "excellent" then 5
  else if quality = "good" then 4
  else if quality = "satisfactory" then 3
  else if quality = "poor" then 2
  else if quality = "inadequate" then 1
  else 3

/-- Check 5 of qa_agent (QAAgent._check_quality_alignment): flag when the
actual quality tier is two or more ordinal levels away from the tier the
percentage predicts. -/
def checkQualityAlignment (evaluations : List AnswerEvaluation) :
    List QAFlag :=
  evaluations.filterMap (fun e =>
    if (qualityLevel (expectedQuality (awardedPercentage e))
          - qualityLevel e.overall_quality).natAbs ≥ 2 then
      some { question_id := e.question_id
             reason := "Quality rating doesn\x27t match score percentage"
             severity := "low"
             details := [("percentage", QADetailValue.num (awardedPercentage e)),
                         ("quality", QADetailValue.str e.overall_quality),
                         ("expected_quality",
                           QADetailValue.str
                             (expectedQuality (awardedPercentage e)))] }
    else none)

/-- Consistency score; models QAAgent._calculate_consistency_score: 1.0 for
an empty evaluation list, otherwise 1.0 minus 0.2 per issue and 0.05 per
flag, clamped to the unit interval. -/
def calculateConsistencyScore (evaluations : List AnswerEvaluation)
    (numIssues numFlags : Nat) : ℚ :=
  if evaluations.isEmpty then 1
  else max 0 (min 1 (1 - (numIssues : ℚ) * 0.2 - (numFlags : ℚ) * 0.05))

/-- Substring test of the recommendation stage: the Python expression tests
whether the text Low confidence occurs inside a flag reason. -/
def mentionsLowConfidence (reason : String) : Bool :=
  decide (List.IsInfix "Low confidence".data reason.data)

/-- Full QA review; models QAAgent._perform_qa_check. The scores and
feedback arguments are accepted exactly as in the source, which never reads
them; flags are gathered in source order (checks 1, 3, 4, 5), issues come
only from check 2, and passed is the absence of issues. -/
def performQACheck {α β : Type} (evaluations : List AnswerEvaluation)
    (scores : α) (feedback : β) (timestamp : Int) : QAResult :=
  let flags := checkLowConfidence evaluations
      ++ checkMandatoryConcepts evaluations
      ++ checkScoreDiscrepancies evaluations
      ++ checkQualityAlignment evaluations
  let issues := checkScoringConsistency evaluations
  let consistency_score :=
    calculateConsistencyScore evaluations issues.length flags.length
  let recommendations :=
    (if consistency_score < 0.8 then
      ["Review marking criteria for consistency"] else []) ++
    (if (flags.length : ℚ) > (evaluations.length : ℚ) * 0.3 then
      ["Consider re-evaluating flagged answers"] else []) ++
    (if flags.any (fun f => mentionsLowConfidence f.reason) then
      ["Human review recommended for low confidence evaluations"] else [])
  { passed := issues.isEmpty
    requires_human_review := decide (flags.length > 0)
    flags := flags
    issues := issues
    confidence_level :=
      if consistency_score ≥ 0.9 ∧ flags.isEmpty then "high"
      else if consistency_score ≥ 0.7 then "medium"
      else "low"
    consistency_score := consistency_score
    recommendations := recommendations
    timestamp := timestamp }

/-- Entry point of the QA stage; models QAAgent.process, which rejects an
empty (falsy) evaluation list with an error message. -/
def qaProcess {α β : Type} (evaluations : List AnswerEvaluation)
    (scores : α) (feedback : β) (timestamp : Int) : Except String QAResult :=
  if evaluations.isEmpty then
    Except.error "No evaluations found in message content"
  else
    Except.ok (performQACheck evaluations scores feedback timestamp)

/-- Analyzed question of the marking guide; models AnalyzedQuestion of
models/question.py restricted to the fields the marking run reads outside
of prompt construction. -/
structure AnalyzedQuestion where
  id : String
  question_number : String
  max_marks : ℚ
deriving DecidableEq

/-- Marking guide; models MarkingGuide with the fields the marking run
reads. -/
structure MarkingGuide where
  title : String
  total_marks : ℚ
  questions : List AnalyzedQuestion
deriving DecidableEq

/-- Student answer to one question; models Answer of models/answer.py. -/
structure Answer where
  question_id : String
  answer_text : String
  is_blank : Bool
deriving DecidableEq

/-- Full submission of one student; models AnswerSheet of
models/answer.py. -/
structure AnswerSheet where
  student_id : Option String
  answers : List Answer
deriving DecidableEq

/-- Models AnswerSheet.get_answer: the first answer whose question
identifier matches, none otherwise. -/
def getAnswer (sheet : AnswerSheet) (question_id : String) : Option Answer :=
  sheet.answers.find? (fun a => a.question_id == question_id)

/-- Structured output of the evaluation backend for one answer: the fields
of the submit_evaluation tool result that
AnswerEvaluatorAgent._evaluate_answer copies into the AnswerEvaluation it
builds. The backend is an external capability, so this is an input of the
embedding, not something the code computes. -/
structure BackendEvaluation where
  concepts_identified : List ConceptEvaluation
  overall_quality : String
  confidence_score : ℚ
deriving DecidableEq

/-- Models AnswerEvaluatorAgent._evaluate_answer: the backend supplies the
concept judgements, quality tier and confidence; the agent sets
marks_awarded to the plain sum of the concept points earned (no cap is
applied at this stage) and copies max_marks from the question. -/
def evaluateAnswer (question : AnalyzedQuestion)
    (backendResult : BackendEvaluation) : AnswerEvaluation :=
  { question_id := question.id
    concepts_identified := backendResult.concepts_identified
    overall_quality := backendResult.overall_quality
    confidence_score := backendResult.confidence_score
    marks_awarded :=
      (backendResult.concepts_identified.map (fun c => c.points_earned)).sum
    max_marks := question.max_marks }

/-- Evaluation-gathering loop of OrchestratorAgent.mark_answer_sheet over a
question list: for each question, look up the submitted answer; when one is
found, evaluate it through the backend; when none is found, log and skip
the question. -/
def gatherEvalsList (backend : AnalyzedQuestion → Answer → BackendEvaluation)
    (sheet : AnswerSheet) (questions : List AnalyzedQuestion) :
    List AnswerEvaluation :=
  questions.filterMap (fun q =>
    match getAnswer sheet q.id with
    | some a => some (evaluateAnswer q (backend q a))
    | none => none)

/-- Evaluation gathering for a whole marking guide, step 2 of
OrchestratorAgent.mark_answer_sheet. -/
def gatherEvaluations (backend : AnalyzedQuestion → Answer → BackendEvaluation)
    (guide : MarkingGuide) (sheet : AnswerSheet) : List AnswerEvaluation :=
  gatherEvalsList backend sheet guide.questions

/-- Terminal report of one marking run; models EvaluationReport of
models/report.py with the fields the claims concern. The feedback report is
backend-generated text never inspected by the pipeline, embedded as an
arbitrary type. -/
structure EvaluationReport (φ : Type) where
  student_id : Option String
  assessment_title : String
  scoring_result : ScoringResult
  question_evaluations : List AnswerEvaluation
  feedback_report : φ
  qa_result : QAResult
  requires_review : Bool
  review_priority : String

/-- Report assembly; models OrchestratorAgent._generate_report: review is
required exactly when the QA result requires it, and the review priority is
derived from the QA confidence level and flag count. -/
def generateReport {φ : Type} (sheet : AnswerSheet) (title : String)
    (evaluations : List AnswerEvaluation) (scores : ScoringResult)
    (feedback : φ) (qa : QAResult) : EvaluationReport φ :=
  { student_id := sheet.student_id
    assessment_title := title
    scoring_result := scores
    question_evaluations := evaluations
    feedback_report := feedback
    qa_result := qa
    requires_review := qa.requires_human_review
    review_priority :=
      if qa.confidence_level = "low" then "high"
      else if qa.confidence_level = "medium" ∨ qa.flags.length > 0 then
        "medium"
      else "low" }

/-- Models OrchestratorAgent.mark_answer_sheet: gather one evaluation per
answered question (unanswered questions are skipped), then run the scoring,
feedback and QA stages in order and assemble the report; an error response
from a stage is raised with the stage name attached and aborts the run. The
feedback generator is a backend capability, embedded as an oracle. -/
def markAnswerSheet {φ : Type}
    (backend : AnalyzedQuestion → Answer → BackendEvaluation)
    (fbGen : List AnswerEvaluation → ScoringResult → φ)
    (guide : MarkingGuide) (sheet : AnswerSheet) (title : String)
    (timestamp : Int) : Except String (EvaluationReport φ) :=
  match scoringProcess (gatherEvaluations backend guide sheet) with
  | Except.error e => Except.error ("Scoring failed: " ++ e)
  | Except.ok scores =>
    match qaProcess (gatherEvaluations backend guide sheet) scores
        (fbGen (gatherEvaluations backend guide sheet) scores) timestamp with
    | Except.error e => Except.error ("QA review failed: " ++ e)
    | Except.ok qa =>
      Except.ok (generateReport sheet title
        (gatherEvaluations backend guide sheet) scores
        (fbGen (gatherEvaluations backend guide sheet) scores) qa)

/-- Association-list lookup, first match; embeds Python dict.get under the
insert-at-front update model used below. -/
def alistLookup {α : Type} (k : String) : List (String × α) → Option α
  | [] => none
  | (k2, v) :: rest => if k2 = k then some v else alistLookup k rest

/-- Cache key of the answer-sheet cache; models the f-string of
PersistentStorage.check_answer_sheet_cache and register_answer_sheet: guide
identifier, student identifier and the hex digest of the answer-sheet file
hash joined with colon separators. -/
def cacheKey (marking_guide_id student_id answer_sheet_hash : String) :
    String :=
  marking_guide_id ++ ":" ++ student_id ++ ":" ++ answer_sheet_hash

/-- In-memory state of the marking service: resident marking guides and
reports of MarkingService plus the answer_sheet_hashes metadata index of
PersistentStorage. -/
structure ServiceState (φ : Type) where
  marking_guides : List (String × MarkingGuide)
  reports : List (String × EvaluationReport φ)
  answer_sheet_hashes : List (String × String)

/-- Models PersistentStorage.check_answer_sheet_cache: look the joined
cache key up in the metadata index. -/
def checkAnswerSheetCache {φ : Type} (st : ServiceState φ)
    (marking_guide_id student_id answer_sheet_hash : String) :
    Option String :=
  alistLookup (cacheKey marking_guide_id student_id answer_sheet_hash)
    st.answer_sheet_hashes

/-- Models PersistentStorage.register_answer_sheet: record the joined cache
key against the report identifier. -/
def registerAnswerSheet {φ : Type} (st : ServiceState φ)
    (marking_guide_id student_id answer_sheet_hash report_id : String) :
    ServiceState φ :=
  { st with answer_sheet_hashes :=
      (cacheKey marking_guide_id student_id answer_sheet_hash, report_id)
        :: st.answer_sheet_hashes }

/-- Models MarkingService.mark_answer_sheet. The answer-sheet bytes enter
only through their hash (PersistentStorage.compute_file_hash is a pure
function of the bytes) and through the processed AnswerSheet the document
processor extracts from them, here an input. The result carries the report
identifier, the report, the cached flag, the state after the call, and the
number of calls made to the evaluation, scoring, feedback and QA capability
ports: a resident cache hit answers before any port is invoked; a fresh run
invokes the evaluation port once per gathered answer and the scoring,
feedback and QA ports once each, then stores the report and registers the
cache entry. -/
def markService {φ : Type}
    (backend : AnalyzedQuestion → Answer → BackendEvaluation)
    (fbGen : List AnswerEvaluation → ScoringResult → φ)
    (st : ServiceState φ)
    (marking_guide_id student_id answer_sheet_hash : String)
    (processedSheet : AnswerSheet) (freshReportId : String)
    (timestamp : Int) :
    Except String ((String × EvaluationReport φ × Bool) × ServiceState φ × Nat) :=
  match alistLookup marking_guide_id st.marking_guides with
  | none => Except.error ("Marking guide not found: " ++ marking_guide_id)
  | some guide =>
    let freshRun : Except String
        ((String × EvaluationReport φ × Bool) × ServiceState φ × Nat) :=
      match markAnswerSheet backend fbGen guide processedSheet guide.title
          timestamp with
      | Except.error e =>
        Except.error ("Failed to mark answer sheet: " ++ e)
      | Except.ok report =>
        let st2 : ServiceState φ :=
          { st with reports := (freshReportId, report) :: st.reports }
        let st3 := registerAnswerSheet st2 marking_guide_id student_id
          answer_sheet_hash freshReportId
        Except.ok ((freshReportId, report, false), st3,
          (gatherEvaluations backend guide processedSheet).length + 3)
    match checkAnswerSheetCache st marking_guide_id student_id
        answer_sheet_hash with
    | some cachedId =>
      match alistLookup cachedId st.reports with
      | some report => Except.ok ((cachedId, report, true), st, 0)
      | none => freshRun
    | none => freshRun

/-- Rank of a value against a descending threshold list: the number of
thresholds at or below the value, assuming the list is sorted descending;
the abstract shape of the grade threshold chain. -/
def rankAux : List ℚ → ℚ → Nat
  | [], _ => 0
  | t :: ts, r => if r ≥ t then ts.length + 1 else rankAux ts r

/-- List of questions of a guide that the submission answers, the questions
the orchestrator loop does not skip. -/
def answeredQuestions (guide : MarkingGuide) (sheet : AnswerSheet) :
    List AnalyzedQuestion :=
  guide.questions.filter (fun q => (getAnswer sheet q.id).isSome)

/-- Table of the ten letter grades the scoring agent can produce. -/
def gradeTable : List String :=
  ["A+", "A", "A-", "B+", "B", "B-", "C+", "C", "C-", "F"]

/-- Ordinal position of a letter grade, F lowest at 0 and A+ highest
at 9. -/
def gradeOrd (grade : String) : Nat :=
  if grade = "A+" then 9
  else if grade = "A" then 8
  else if grade = "A-" then 7
  else if grade = "B+" then 6
  else if grade = "B" then 5
  else if grade = "B-" then 4
  else if grade = "C+" then 3
  else if grade = "C" then 2
  else if grade = "C-" then 1
  else 0

/-- Ordinal band of a percentage under the threshold chain of
ScoringAgent._calculate_grade, aligned with gradeOrd. -/
def gradeRank (percentage : ℚ) : Nat :=
  if percentage ≥ 90 then 9
  else if percentage ≥ 85 then 8
  else if percentage ≥ 80 then 7
  else if percentage ≥ 75 then 6
  else if percentage ≥ 70 then 5
  else if percentage ≥ 65 then 4
  else if percentage ≥ 60 then 3
  else if percentage ≥ 55 then 2
  else if percentage ≥ 50 then 1
  else 0

/-- Concrete question worth 5 marks, used in concrete instantiations. -/
def qFive : AnalyzedQuestion :=
  { id := "Q1", question_number := "1", max_marks := 5 }

/-- Concrete concept judgement awarding 7 points, more than the 5-mark
question maximum. -/
def conceptSeven : ConceptEvaluation :=
  { concept := "key idea"
    present := true
    accuracy := "fully_correct"
    evidence := "quoted text"
    points_earned := 7
    points_possible := 5 }

/-- Concrete backend output whose concept points sum to 7. -/
def backendSeven : BackendEvaluation :=
  { concepts_identified := [conceptSeven]
    overall_quality := "good"
    confidence_score := 0.9 }

/-- Concrete evaluation whose concept points sum (7) exceeds its maximum
(5). -/
def evalSeven : AnswerEvaluation := evaluateAnswer qFive backendSeven

/-- Concrete concept judgement awarding 8 of 10 points. -/
def conceptEight : ConceptEvaluation :=
  { concept := "main argument"
    present := true
    accuracy := "partially_correct"
    evidence := "quoted text"
    points_earned := 8
    points_possible := 10 }

/-- Concrete evaluation that triggers exactly one QA flag (low confidence)
and no issue: 8 of 10 points, quality good, confidence 0.5. -/
def evalLowConf (qid : String) : AnswerEvaluation :=
  { question_id := qid
    concepts_identified := [conceptEight]
    overall_quality := "good"
    confidence_score := 0.5
    marks_awarded := 8
    max_marks := 10 }

/-- Concrete list of three one-flag evaluations, the worked example with 0
issues and 3 flags. -/
def evalsThreeFlags : List AnswerEvaluation :=
  [evalLowConf "Q1", evalLowConf "Q2", evalLowConf "Q3"]

/-- Trivial evaluation backend used in concrete instantiations. -/
def backendTriv : AnalyzedQuestion → Answer → BackendEvaluation :=
  fun _ _ =>
    { concepts_identified := [conceptEight]
      overall_quality := "good"
      confidence_score := 0.9 }

/-- Trivial feedback generator used in concrete instantiations. -/
def fbUnit : List AnswerEvaluation → ScoringResult → Unit := fun _ _ => ()

/-- Concrete five-question guide. -/
def guideFive : MarkingGuide :=
  { title := "Assessment"
    total_marks := 20
    questions :=
      [{ id := "Q1", question_number := "1", max_marks := 2 },
       { id := "Q2", question_number := "2", max_marks := 3 },
       { id := "Q3", question_number := "3", max_marks := 4 },
       { id := "Q4", question_number := "4", max_marks := 5 },
       { id := "Q5", question_number := "5", max_marks := 6 }] }

/-- Concrete submission answering three of the five questions of
guideFive. -/
def sheetThree : AnswerSheet :=
  { student_id := some "s1"
    answers :=
      [{ question_id := "Q1", answer_text := "first answer", is_blank := false },
       { question_id := "Q3", answer_text := "third answer", is_blank := false },
       { question_id := "Q5", answer_text := "fifth answer", is_blank := false }] }

/-- Concrete submission with no answers at all. -/
def sheetNone : AnswerSheet := { student_id := some "s1", answers := [] }

/-- Concrete one-question guide. -/
def guideOne : MarkingGuide :=
  { title := "Quiz", total_marks := 5, questions := [qFive] }

/-- Concrete submission answering the single question of guideOne. -/
def sheetOne : AnswerSheet :=
  { student_id := some "s1"
    answers :=
      [{ question_id := "Q1", answer_text := "an answer", is_blank := false }] }

/-- Empty service state. -/
def stateEmpty : ServiceState Unit :=
  { marking_guides := [], reports := [], answer_sheet_hashes := [] }

/-- Service state holding guideOne and nothing else. -/
def stateOne : ServiceState Unit :=
  { marking_guides := [("g1", guideOne)], reports := [], answer_sheet_hashes := [] }

/-- Evaluations gathered by the first concrete marking run. -/
def evalsRunOne : List AnswerEvaluation :=
  gatherEvaluations backendTriv guideOne sheetOne

/-- Report produced by the first concrete marking run. -/
def reportRunOne : EvaluationReport Unit :=
  generateReport sheetOne guideOne.title evalsRunOne (calculateScores evalsRunOne)
    (fbUnit evalsRunOne (calculateScores evalsRunOne))
    (performQACheck evalsRunOne (calculateScores evalsRunOne)
      (fbUnit evalsRunOne (calculateScores evalsRunOne)) 0)

/-- Service state after the first concrete marking run: the report is
stored and the cache entry registered. -/
def stateAfterRunOne : ServiceState Unit :=
  { marking_guides := [("g1", guideOne)]
    reports := [("r1", reportRunOne)]
    answer_sheet_hashes := [(cacheKey "g1" "s1" "h1", "r1")] }

/-- C1 counterexample: the evaluation stage does not cap marks_awarded at
max_marks. On a 5-mark question whose backend output awards 7 concept
points, the produced Evaluation has marks_awarded 7, exceeding max_marks 5
and differing from the capped sum the claim describes. -/
theorem evaluateAnswer_can_exceed_max :
    evalSeven.marks_awarded = 7 ∧ evalSeven.max_marks = 5 ∧
    ¬ evalSeven.marks_awarded ≤ evalSeven.max_marks ∧
    evalSeven.marks_awarded ≠ min (conceptPointsSum evalSeven) evalSeven.max_marks := by
  refine ⟨?_, ?_, ?_, ?_⟩ <;>
    norm_num [evalSeven, evaluateAnswer, qFive, backendSeven, conceptSeven,
      conceptPointsSum]

/-- C1 (amended): every Evaluation produced by the answer-evaluation stage
has marks_awarded equal to the uncapped sum of the concept points earned
and max_marks copied from the question; it is only the scoring stage that
caps, per question, at max_marks. -/
theorem evaluateAnswer_marks_awarded_uncapped (q : AnalyzedQuestion)
    (b : BackendEvaluation) :
    (evaluateAnswer q b).marks_awarded =
      (b.concepts_identified.map (fun c => c.points_earned)).sum ∧
    (evaluateAnswer q b).max_marks = q.max_marks ∧
    (questionScoreOf (evaluateAnswer q b)).marks_awarded ≤ q.max_marks := by
  refine ⟨rfl, rfl, ?_⟩
  simp [questionScoreOf, questionMark, evaluateAnswer]

/-- C2: score aggregation over a non-empty evaluation list awards each
question the concept points sum capped at its maximum, sums the per
question marks and maxima, derives the percentage from the totals (zero
when the maximum is zero), and yields marks_awarded bounded by max_marks
per question and in total. -/
theorem calculateScores_spec (evaluations : List AnswerEvaluation)
    (h : evaluations ≠ []) :
    (calculateScores evaluations).question_scores =
      evaluations.map questionScoreOf ∧
    (∀ e ∈ evaluations,
      (questionScoreOf e).marks_awarded = min (conceptPointsSum e) e.max_marks) ∧
    (calculateScores evaluations).total_marks =
      (evaluations.map questionMark).sum ∧
    (calculateScores evaluations).max_marks =
      (evaluations.map (fun e => e.max_marks)).sum ∧
    (calculateScores evaluations).percentage =
      (if (calculateScores evaluations).max_marks > 0 then
        (calculateScores evaluations).total_marks /
          (calculateScores evaluations).max_marks * 100
      else 0) ∧
    ((calculateScores evaluations).max_marks = 0 →
      (calculateScores evaluations).percentage = 0) ∧
    (∀ qs ∈ (calculateScores evaluations).question_scores,
      qs.marks_awarded ≤ qs.max_marks) ∧
    (calculateScores evaluations).total_marks ≤
      (calculateScores evaluations).max_marks := by
  refine ⟨rfl, fun e _ => rfl, rfl, rfl, rfl, ?_, ?_, ?_⟩
  · intro h0
    simp only [calculateScores] at h0 ⊢
    simp [overallPercentage, h0]
  · intro qs hqs
    simp only [calculateScores, List.mem_map] at hqs
    obtain ⟨e, _, rfl⟩ := hqs
    simp [questionScoreOf, questionMark]
  · simp only [calculateScores, scoresTotal, scoresMax]
    exact List.sum_le_sum (fun e _ => min_le_right (conceptPointsSum e) e.max_marks)

/-- C2 witness: the specification instantiated at a concrete one-element
evaluation list. -/
theorem calculateScores_spec_witness :
    ([evalSeven] : List AnswerEvaluation) ≠ [] ∧
    (calculateScores [evalSeven]).total_marks ≤
      (calculateScores [evalSeven]).max_marks := by
  have h : ([evalSeven] : List AnswerEvaluation) ≠ [] :=
    List.cons_ne_nil _ _
  exact ⟨h, (calculateScores_spec [evalSeven] h).2.2.2.2.2.2.2⟩

/-- Helper: the gathering loop produces one evaluation per question that
has an answer, so its length is the length of the filtered question
list. -/
theorem gatherEvalsList_length
    (backend : AnalyzedQuestion → Answer → BackendEvaluation)
    (sheet : AnswerSheet) (questions : List AnalyzedQuestion) :
    (gatherEvalsList backend sheet questions).length =
      (questions.filter (fun q => (getAnswer sheet q.id).isSome)).length := by
  induction questions with
  | nil => rfl
  | cons q qs ih =>
    cases hq : getAnswer sheet q.id with
    | none =>
      simp [gatherEvalsList, List.filterMap_cons, hq, List.filter_cons] at ih ⊢
      exact ih
    | some a =>
      simp [gatherEvalsList, List.filterMap_cons, hq, List.filter_cons] at ih ⊢
      exact ih

/-- Helper: the summed maxima of the gathered evaluations equal the summed
maxima of the answered questions, since the evaluator copies max_marks from
the question. -/
theorem gatherEvalsList_max_sum
    (backend : AnalyzedQuestion → Answer → BackendEvaluation)
    (sheet : AnswerSheet) (questions : List AnalyzedQuestion) :
    ((gatherEvalsList backend sheet questions).map (fun e => e.max_marks)).sum =
      ((questions.filter (fun q => (getAnswer sheet q.id).isSome)).map
        (fun q => q.max_marks)).sum := by
  induction questions with
  | nil => rfl
  | cons q qs ih =>
    cases hq : getAnswer sheet q.id with
    | none =>
      simp [gatherEvalsList, List.filterMap_cons, hq, List.filter_cons] at ih ⊢
      exact ih
    | some a =>
      simp [gatherEvalsList, List.filterMap_cons, hq, List.filter_cons,
        evaluateAnswer] at ih ⊢
      rw [ih]

/-- Helper: the gathered evaluations carry the identifiers of the answered
questions, in guide order. -/
theorem gatherEvalsList_ids
    (backend : AnalyzedQuestion → Answer → BackendEvaluation)
    (sheet : AnswerSheet) (questions : List AnalyzedQuestion) :
    (gatherEvalsList backend sheet questions).map (fun e => e.question_id) =
      (questions.filter (fun q => (getAnswer sheet q.id).isSome)).map
        (fun q => q.id) := by
  induction questions with
  | nil => rfl
  | cons q qs ih =>
    cases hq : getAnswer sheet q.id with
    | none =>
      simp [gatherEvalsList, List.filterMap_cons, hq, List.filter_cons] at ih ⊢
      exact ih
    | some a =>
      simp [gatherEvalsList, List.filterMap_cons, hq, List.filter_cons,
        evaluateAnswer] at ih ⊢
      rw [ih]

/-- Helper: when no question of the list has an answer, the gathering loop
produces nothing. -/
theorem gatherEvalsList_eq_nil
    (backend : AnalyzedQuestion → Answer → BackendEvaluation)
    (sheet : AnswerSheet) (questions : List AnalyzedQuestion)
    (h : ∀ q ∈ questions, getAnswer sheet q.id = none) :
    gatherEvalsList backend sheet questions = [] := by
  apply List.filterMap_eq_nil_iff.2
  intro q hq
  rw [h q hq]

/-- C3: a question without an answer is skipped without failing the run:
whenever at least one question is answered, the marking run succeeds and
its report holds exactly one Evaluation per answered question, with the
ScoreSheet maximum summing only the answered questions maxima. -/
theorem markAnswerSheet_skips_unanswered {φ : Type}
    (backend : AnalyzedQuestion → Answer → BackendEvaluation)
    (fbGen : List AnswerEvaluation → ScoringResult → φ)
    (guide : MarkingGuide) (sheet : AnswerSheet) (title : String)
    (timestamp : Int)
    (h : ∃ q ∈ guide.questions, (getAnswer sheet q.id).isSome) :
    ∃ report, markAnswerSheet backend fbGen guide sheet title timestamp =
        Except.ok report ∧
      report.question_evaluations.length =
        (answeredQuestions guide sheet).length ∧
      report.question_evaluations.map (fun e => e.question_id) =
        (answeredQuestions guide sheet).map (fun q => q.id) ∧
      report.scoring_result.max_marks =
        ((answeredQuestions guide sheet).map (fun q => q.max_marks)).sum := by
  have hids : (gatherEvaluations backend guide sheet).map
        (fun e => e.question_id) =
      (answeredQuestions guide sheet).map (fun q => q.id) :=
    gatherEvalsList_ids backend sheet guide.questions
  have hlen : (gatherEvaluations backend guide sheet).length =
      (answeredQuestions guide sheet).length :=
    gatherEvalsList_length backend sheet guide.questions
  have hmax : ((gatherEvaluations backend guide sheet).map
        (fun e => e.max_marks)).sum =
      ((answeredQuestions guide sheet).map (fun q => q.max_marks)).sum :=
    gatherEvalsList_max_sum backend sheet guide.questions
  have hpos : 0 < (answeredQuestions guide sheet).length := by
    obtain ⟨q, hq, hsome⟩ := h
    exact List.length_pos.2
      (List.ne_nil_of_mem (List.mem_filter.2 ⟨hq, hsome⟩))
  have hne : (gatherEvaluations backend guide sheet).isEmpty = false := by
    rcases heq : gatherEvaluations backend guide sheet with _ | ⟨e, es⟩
    · rw [heq] at hlen
      simp at hlen
      omega
    · rfl
  have hsp : scoringProcess (gatherEvaluations backend guide sheet) =
      Except.ok (calculateScores (gatherEvaluations backend guide sheet)) := by
    simp [scoringProcess, hne]
  have hqa : qaProcess (gatherEvaluations backend guide sheet)
      (calculateScores (gatherEvaluations backend guide sheet))
      (fbGen (gatherEvaluations backend guide sheet)
        (calculateScores (gatherEvaluations backend guide sheet))) timestamp =
      Except.ok (performQACheck (gatherEvaluations backend guide sheet)
        (calculateScores (gatherEvaluations backend guide sheet))
        (fbGen (gatherEvaluations backend guide sheet)
          (calculateScores (gatherEvaluations backend guide sheet)))
        timestamp) := by
    simp [qaProcess, hne]
  have hrun : markAnswerSheet backend fbGen guide sheet title timestamp =
      Except.ok (generateReport sheet title
        (gatherEvaluations backend guide sheet)
        (calculateScores (gatherEvaluations backend guide sheet))
        (fbGen (gatherEvaluations backend guide sheet)
          (calculateScores (gatherEvaluations backend guide sheet)))
        (performQACheck (gatherEvaluations backend guide sheet)
          (calculateScores (gatherEvaluations backend guide sheet))
          (fbGen (gatherEvaluations backend guide sheet)
            (calculateScores (gatherEvaluations backend guide sheet)))
          timestamp)) := by
    simp only [markAnswerSheet, hsp, hqa]
  refine ⟨_, hrun, ?_, ?_, ?_⟩
  · simpa [generateReport] using hlen
  · simpa [generateReport] using hids
  · simpa [generateReport, calculateScores, scoresMax] using hmax

/-- C3 witness: the five-question guide with three answered questions
yields a successful run with three evaluations and the summed maxima of
those three questions only. -/
theorem markAnswerSheet_skips_unanswered_witness :
    (∃ q ∈ guideFive.questions, (getAnswer sheetThree q.id).isSome) ∧
    (answeredQuestions guideFive sheetThree).length = 3 ∧
    ∃ report, markAnswerSheet backendTriv fbUnit guideFive sheetThree
        "Assessment" 0 = Except.ok report ∧
      report.question_evaluations.length =
        (answeredQuestions guideFive sheetThree).length ∧
      report.question_evaluations.map (fun e => e.question_id) =
        (answeredQuestions guideFive sheetThree).map (fun q => q.id) ∧
      report.scoring_result.max_marks =
        ((answeredQuestions guideFive sheetThree).map
          (fun q => q.max_marks)).sum := by
  have h : ∃ q ∈ guideFive.questions, (getAnswer sheetThree q.id).isSome := by
    decide
  exact ⟨h, by decide,
    markAnswerSheet_skips_unanswered backendTriv fbUnit guideFive sheetThree
      "Assessment" 0 h⟩

/-- C4: a submission answering no question of the guide makes the scoring
stage answer with the error message and the whole run fail with that error
instead of completing with a zero score. -/
theorem markAnswerSheet_fails_no_answers {φ : Type}
    (backend : AnalyzedQuestion → Answer → BackendEvaluation)
    (fbGen : List AnswerEvaluation → ScoringResult → φ)
    (guide : MarkingGuide) (sheet : AnswerSheet) (title : String)
    (timestamp : Int)
    (h : ∀ q ∈ guide.questions, getAnswer sheet q.id = none) :
    scoringProcess (gatherEvaluations backend guide sheet) =
      Except.error "No evaluations found in message content" ∧
    markAnswerSheet backend fbGen guide sheet title timestamp =
      Except.error "Scoring failed: No evaluations found in message content" := by
  have hnil : gatherEvaluations backend guide sheet = [] :=
    gatherEvalsList_eq_nil backend sheet guide.questions h
  have hsp : scoringProcess (gatherEvaluations backend guide sheet) =
      Except.error "No evaluations found in message content" := by
    rw [hnil]
    rfl
  refine ⟨hsp, ?_⟩
  simp only [markAnswerSheet, hsp]
  rfl

/-- C4 witness: the one-question guide with an empty submission. -/
theorem markAnswerSheet_fails_no_answers_witness :
    (∀ q ∈ guideOne.questions, getAnswer sheetNone q.id = none) ∧
    markAnswerSheet backendTriv fbUnit guideOne sheetNone "Quiz" 0 =
      Except.error "Scoring failed: No evaluations found in message content" := by
  have h : ∀ q ∈ guideOne.questions, getAnswer sheetNone q.id = none := by
    decide
  exact ⟨h, (markAnswerSheet_fails_no_answers backendTriv fbUnit guideOne
    sheetNone "Quiz" 0 h).2⟩

/-- Helper: the scoring-consistency check finds nothing exactly when every
concept points sum is within its question maximum. -/
theorem checkScoringConsistency_eq_nil_iff (evaluations : List AnswerEvaluation) :
    checkScoringConsistency evaluations = [] ↔
      ∀ e ∈ evaluations, conceptPointsSum e ≤ e.max_marks := by
  simp [checkScoringConsistency, List.filterMap_eq_nil_iff, not_lt]

/-- C5: over a non-empty evaluation list, the audit fails (passed = false)
exactly when some evaluation has a concept points sum strictly above its
question maximum; the issue list is exactly the output of the
scoring-consistency check, so no other check contributes to it, and every
violation is recorded there as a hard issue naming the question. -/
theorem performQACheck_passed_iff {α β : Type}
    (evaluations : List AnswerEvaluation) (scores : α) (feedback : β)
    (timestamp : Int) (h : evaluations ≠ []) :
    ((performQACheck evaluations scores feedback timestamp).passed = false ↔
      ∃ e ∈ evaluations, conceptPointsSum e > e.max_marks) ∧
    (performQACheck evaluations scores feedback timestamp).issues =
      checkScoringConsistency evaluations ∧
    (∀ e ∈ evaluations, conceptPointsSum e > e.max_marks →
      ∃ i ∈ (performQACheck evaluations scores feedback timestamp).issues,
        i.question_id = e.question_id ∧ i.issue = "Score exceeds maximum" ∧
        i.awarded = conceptPointsSum e ∧ i.maxMarks = e.max_marks) := by
  have hpassed : (performQACheck evaluations scores feedback timestamp).passed =
      (checkScoringConsistency evaluations).isEmpty := rfl
  have hissues : (performQACheck evaluations scores feedback timestamp).issues =
      checkScoringConsistency evaluations := rfl
  refine ⟨?_, hissues, ?_⟩
  · rw [hpassed]
    have hbool : (checkScoringConsistency evaluations).isEmpty = false ↔
        ¬ checkScoringConsistency evaluations = [] := by
      cases hc : checkScoringConsistency evaluations <;> simp
    rw [hbool, checkScoringConsistency_eq_nil_iff]
    push_neg
    simp [lt_iff_lt_of_le_iff_le]
  · intro e he hgt
    refine ⟨{ question_id := e.question_id
              issue := "Score exceeds maximum"
              awarded := conceptPointsSum e
              maxMarks := e.max_marks }, ?_, rfl, rfl, rfl, rfl⟩
    rw [hissues]
    exact List.mem_filterMap.2 ⟨e, he, by rw [if_pos hgt]⟩

/-- C5 witness: a single evaluation awarding 7 concept points on a 5-mark
question makes the audit fail. -/
theorem performQACheck_passed_iff_witness :
    ([evalSeven] : List AnswerEvaluation) ≠ [] ∧
    ((performQACheck [evalSeven] () () 0).passed = false ↔
      ∃ e ∈ [evalSeven], conceptPointsSum e > e.max_marks) := by
  have h : ([evalSeven] : List AnswerEvaluation) ≠ [] := List.cons_ne_nil _ _
  exact ⟨h, (performQACheck_passed_iff [evalSeven] () () 0 h).1⟩

/-- C6: over a non-empty evaluation list, the consistency score equals 1.0
minus 0.2 per issue and 0.05 per flag clamped to the unit interval, the
confidence tier is high when the score is at least 0.9 with no flag, medium
when the score is at least 0.7, and low otherwise; with 0 issues and 3
flags the score is 0.85 and the tier is medium. -/
theorem performQACheck_consistency {α β : Type}
    (evaluations : List AnswerEvaluation) (scores : α) (feedback : β)
    (timestamp : Int) (h : evaluations ≠ []) :
    (performQACheck evaluations scores feedback timestamp).consistency_score =
      max 0 (min 1 (1 -
        ((performQACheck evaluations scores feedback timestamp).issues.length : ℚ)
          * 0.2 -
        ((performQACheck evaluations scores feedback timestamp).flags.length : ℚ)
          * 0.05)) ∧
    (performQACheck evaluations scores feedback timestamp).confidence_level =
      (if (performQACheck evaluations scores feedback timestamp).consistency_score
            ≥ 0.9 ∧
          (performQACheck evaluations scores feedback timestamp).flags.length = 0
        then "high"
        else if (performQACheck evaluations scores feedback
            timestamp).consistency_score ≥ 0.7 then "medium"
        else "low") ∧
    ((performQACheck evaluations scores feedback timestamp).issues.length = 0 →
      (performQACheck evaluations scores feedback timestamp).flags.length = 3 →
      (performQACheck evaluations scores feedback
        timestamp).consistency_score = 0.85 ∧
      (performQACheck evaluations scores feedback
        timestamp).confidence_level = "medium") := by
  have hne : evaluations.isEmpty = false := by
    cases evaluations
    · exact absurd rfl h
    · rfl
  have hsc : (performQACheck evaluations scores feedback timestamp).consistency_score =
      max 0 (min 1 (1 -
        ((performQACheck evaluations scores feedback timestamp).issues.length : ℚ)
          * 0.2 -
        ((performQACheck evaluations scores feedback timestamp).flags.length : ℚ)
          * 0.05)) := by
    have hrfl : (performQACheck evaluations scores feedback timestamp).consistency_score =
        calculateConsistencyScore evaluations
          (performQACheck evaluations scores feedback timestamp).issues.length
          (performQACheck evaluations scores feedback timestamp).flags.length := rfl
    rw [hrfl]
    simp [calculateConsistencyScore, hne]
  have hlev : (performQACheck evaluations scores feedback timestamp).confidence_level =
      (if (performQACheck evaluations scores feedback timestamp).consistency_score
            ≥ 0.9 ∧
          (performQACheck evaluations scores feedback timestamp).flags.length = 0
        then "high"
        else if (performQACheck evaluations scores feedback
            timestamp).consistency_score ≥ 0.7 then "medium"
        else "low") := by
    have hrfl : (performQACheck evaluations scores feedback timestamp).confidence_level =
        (if (performQACheck evaluations scores feedback timestamp).consistency_score
              ≥ 0.9 ∧
            ((performQACheck evaluations scores feedback timestamp).flags).isEmpty
          then "high"
          else if (performQACheck evaluations scores feedback
              timestamp).consistency_score ≥ 0.7 then "medium"
          else "low") := rfl
    rw [hrfl]
    simp only [List.isEmpty_iff, List.length_eq_zero]
  refine ⟨hsc, hlev, ?_⟩
  intro hI hF
  have hsc85 : (performQACheck evaluations scores feedback
      timestamp).consistency_score = 0.85 := by
    rw [hsc, hI, hF]
    norm_num
  refine ⟨hsc85, ?_⟩
  rw [hlev, hsc85, hF]
  norm_num

/-- C6 witness: three evaluations each raising exactly one low-confidence
flag and no issue give consistency score 0.85 and tier medium. -/
theorem performQACheck_consistency_witness :
    evalsThreeFlags ≠ [] ∧
    (performQACheck evalsThreeFlags () () 0).issues.length = 0 ∧
    (performQACheck evalsThreeFlags () () 0).flags.length = 3 ∧
    (performQACheck evalsThreeFlags () () 0).consistency_score = 0.85 ∧
    (performQACheck evalsThreeFlags () () 0).confidence_level = "medium" := by
  have h : evalsThreeFlags ≠ [] := by
    simp [evalsThreeFlags]
  have hI : (performQACheck evalsThreeFlags () () 0).issues.length = 0 := by
    norm_num [performQACheck, evalsThreeFlags, evalLowConf, conceptEight,
      checkScoringConsistency, conceptPointsSum, List.filterMap_cons]
  have hF : (performQACheck evalsThreeFlags () () 0).flags.length = 3 := by
    norm_num [performQACheck, evalsThreeFlags, evalLowConf, conceptEight,
      checkLowConfidence, checkMandatoryConcepts, checkScoreDiscrepancies,
      checkQualityAlignment, conceptPointsSum, missingMandatoryCount,
      awardedPercentage, expectedQuality, qualityLevel,
      List.filterMap_cons]
    simp
  obtain ⟨hs, hl⟩ :=
    (performQACheck_consistency evalsThreeFlags () () 0 h).2.2 hI hF
  exact ⟨h, hI, hF, hs, hl⟩

/-- Helper: the letter grade of a percentage sits at the ordinal position
given by the threshold chain. -/
theorem gradeOrd_calculateGrade (percentage : ℚ) :
    gradeOrd (calculateGrade percentage) = gradeRank percentage := by
  unfold calculateGrade gradeRank
  split_ifs <;> rfl

/-- Helper: the rank against any threshold list is at most the list
length. -/
theorem rankAux_le_length (ts : List ℚ) (r : ℚ) :
    rankAux ts r ≤ ts.length := by
  induction ts with
  | nil => exact Nat.le_refl 0
  | cons t ts ih =>
    by_cases hr : r ≥ t
    · simp [rankAux, hr]
    · simp [rankAux, hr]
      omega

/-- Helper: the rank against any threshold list is monotone in the
value. -/
theorem rankAux_mono (ts : List ℚ) (p q : ℚ) (hpq : p ≤ q) :
    rankAux ts p ≤ rankAux ts q := by
  induction ts with
  | nil => exact Nat.le_refl 0
  | cons t ts ih =>
    by_cases hp : p ≥ t
    · have hq : q ≥ t := le_trans hp hpq
      simp [rankAux, hp, hq]
    · by_cases hq : q ≥ t
      · simp [rankAux, hp, hq]
        exact le_trans (rankAux_le_length ts p) (Nat.le_succ _)
      · simp [rankAux, hp, hq]
        exact ih

/-- Helper: the grade threshold chain is an instance of rankAux on the
descending threshold list. -/
theorem gradeRank_eq_rankAux (r : ℚ) :
    gradeRank r = rankAux [90, 85, 80, 75, 70, 65, 60, 55, 50] r := rfl

/-- Helper: the threshold chain is monotone in the percentage. -/
theorem gradeRank_mono (p q : ℚ) (hpq : p ≤ q) :
    gradeRank p ≤ gradeRank q := by
  rw [gradeRank_eq_rankAux, gradeRank_eq_rankAux]
  exact rankAux_mono _ p q hpq

/-- C9: the grade function is total over the ten grades and monotone
non-decreasing, the band boundaries hold exactly (49 gives F, 50 gives C-,
65 gives B-, 90 gives A+), and a scoring result is passed exactly when its
percentage is at least 50. -/
theorem calculateGrade_total_monotone (p q : ℚ) (h0 : 0 ≤ p) (h100 : p ≤ 100)
    (hpq : p ≤ q) :
    calculateGrade p ∈ gradeTable ∧
    gradeOrd (calculateGrade p) ≤ gradeOrd (calculateGrade q) ∧
    calculateGrade 49 = "F" ∧ calculateGrade 50 = "C-" ∧
    calculateGrade 65 = "B-" ∧ calculateGrade 90 = "A+" ∧
    (∀ evaluations, (calculateScores evaluations).passed = true ↔
      (calculateScores evaluations).percentage ≥ 50) := by
  refine ⟨?_, ?_, ?_, ?_, ?_, ?_, ?_⟩
  · unfold calculateGrade
    split_ifs <;> simp [gradeTable]
  · rw [gradeOrd_calculateGrade, gradeOrd_calculateGrade]
    exact gradeRank_mono p q hpq
  · norm_num [calculateGrade]
  · norm_num [calculateGrade]
  · norm_num [calculateGrade]
  · norm_num [calculateGrade]
  · intro evaluations
    simp [calculateScores]

/-- C9 witness: the grade specification instantiated at percentages 50
and 60. -/
theorem calculateGrade_total_monotone_witness :
    (0 ≤ (50 : ℚ) ∧ (50 : ℚ) ≤ 100 ∧ (50 : ℚ) ≤ 60) ∧
    calculateGrade 50 ∈ gradeTable ∧
    gradeOrd (calculateGrade 50) ≤ gradeOrd (calculateGrade 60) := by
  have h := calculateGrade_total_monotone 50 60 (by norm_num) (by norm_num)
    (by norm_num)
  exact ⟨⟨by norm_num, by norm_num, by norm_num⟩, h.1, h.2.1⟩

/-- C10: the QA engine is deterministic: two runs on identical evaluation,
scores and feedback input agree on every field of the result except the
timestamp, which is the only wall-clock input. -/
theorem performQACheck_deterministic {α β : Type}
    (evaluations : List AnswerEvaluation) (scores : α) (feedback : β)
    (t1 t2 : Int) :
    (performQACheck evaluations scores feedback t1).passed =
      (performQACheck evaluations scores feedback t2).passed ∧
    (performQACheck evaluations scores feedback t1).requires_human_review =
      (performQACheck evaluations scores feedback t2).requires_human_review ∧
    (performQACheck evaluations scores feedback t1).flags =
      (performQACheck evaluations scores feedback t2).flags ∧
    (performQACheck evaluations scores feedback t1).issues =
      (performQACheck evaluations scores feedback t2).issues ∧
    (performQACheck evaluations scores feedback t1).confidence_level =
      (performQACheck evaluations scores feedback t2).confidence_level ∧
    (performQACheck evaluations scores feedback t1).consistency_score =
      (performQACheck evaluations scores feedback t2).consistency_score ∧
    (performQACheck evaluations scores feedback t1).recommendations =
      (performQACheck evaluations scores feedback t2).recommendations :=
  ⟨rfl, rfl, rfl, rfl, rfl, rfl, rfl⟩

/-- C7: once a marking run for a (guide, student, answer-hash) triple has
completed and registered its report, a second mark_answer_sheet call for
the same triple answers from the cache: it returns the same report
identifier and the same report, leaves the state unchanged, and makes zero
calls to the evaluation, scoring, feedback and QA capability ports —
whatever backend, processed sheet, fresh identifier or timestamp the second
call would otherwise have used. -/
theorem markService_cache_idempotent {φ : Type}
    (backend : AnalyzedQuestion → Answer → BackendEvaluation)
    (fbGen : List AnswerEvaluation → ScoringResult → φ)
    (st : ServiceState φ)
    (marking_guide_id student_id answer_sheet_hash : String)
    (processedSheet : AnswerSheet) (freshReportId : String) (timestamp : Int)
    (rid : String) (rep : EvaluationReport φ) (st2 : ServiceState φ) (n : Nat)
    (h : markService backend fbGen st marking_guide_id student_id
        answer_sheet_hash processedSheet freshReportId timestamp =
      Except.ok ((rid, rep, false), st2, n))
    (backend2 : AnalyzedQuestion → Answer → BackendEvaluation)
    (fbGen2 : List AnswerEvaluation → ScoringResult → φ)
    (processedSheet2 : AnswerSheet) (freshReportId2 : String)
    (timestamp2 : Int) :
    markService backend2 fbGen2 st2 marking_guide_id student_id
      answer_sheet_hash processedSheet2 freshReportId2 timestamp2 =
      Except.ok ((rid, rep, true), st2, 0) := by
  unfold markService at h
  cases hg : alistLookup marking_guide_id st.marking_guides with
  | none =>
    rw [hg] at h
    dsimp only at h
    exact absurd h (by simp)
  | some guide =>
    rw [hg] at h
    dsimp only at h
    have hfresh : (match markAnswerSheet backend fbGen guide processedSheet
          guide.title timestamp with
        | Except.error e =>
          Except.error ("Failed to mark answer sheet: " ++ e)
        | Except.ok report =>
          Except.ok ((freshReportId, report, false),
            registerAnswerSheet
              { st with reports := (freshReportId, report) :: st.reports }
              marking_guide_id student_id answer_sheet_hash freshReportId,
            (gatherEvaluations backend guide processedSheet).length + 3)) =
        Except.ok ((rid, rep, false), st2, n) := by
      cases hc : checkAnswerSheetCache st marking_guide_id student_id
          answer_sheet_hash with
      | none =>
        rw [hc] at h
        dsimp only at h
        exact h
      | some cachedId =>
        rw [hc] at h
        dsimp only at h
        cases hr : alistLookup cachedId st.reports with
        | none =>
          rw [hr] at h
          dsimp only at h
          exact h
        | some report =>
          rw [hr] at h
          dsimp only at h
          simp at h
    cases hm : markAnswerSheet backend fbGen guide processedSheet guide.title
        timestamp with
    | error e =>
      rw [hm] at hfresh
      dsimp only at hfresh
      exact absurd hfresh (by simp)
    | ok report =>
      rw [hm] at hfresh
      dsimp only at hfresh
      simp only [Except.ok.injEq, Prod.mk.injEq] at hfresh
      obtain ⟨⟨hrid, hrep, -⟩, hst2, -⟩ := hfresh
      subst hrid
      subst hrep
      subst hst2
      unfold markService
      have hg2 : alistLookup marking_guide_id
          (registerAnswerSheet
            { st with reports := (freshReportId, report) :: st.reports }
            marking_guide_id student_id answer_sheet_hash
            freshReportId).marking_guides = some guide := hg
      rw [hg2]
      dsimp only
      have hc2 : checkAnswerSheetCache
          (registerAnswerSheet
            { st with reports := (freshReportId, report) :: st.reports }
            marking_guide_id student_id answer_sheet_hash freshReportId)
          marking_guide_id student_id answer_sheet_hash =
          some freshReportId := by
        simp [checkAnswerSheetCache, registerAnswerSheet, alistLookup]
      rw [hc2]
      dsimp only
      have hr2 : alistLookup freshReportId
          (registerAnswerSheet
            { st with reports := (freshReportId, report) :: st.reports }
            marking_guide_id student_id answer_sheet_hash
            freshReportId).reports = some report := by
        simp [registerAnswerSheet, alistLookup]
      rw [hr2]

/-- C7 witness: a concrete successful first run on the one-question guide,
then the second call on the resulting state answers from the cache with
zero capability-port calls. -/
theorem markService_cache_idempotent_witness :
    markService backendTriv fbUnit stateOne "g1" "s1" "h1" sheetOne "r1" 0 =
      Except.ok (("r1", reportRunOne, false), stateAfterRunOne,
        evalsRunOne.length + 3) ∧
    markService backendTriv fbUnit stateAfterRunOne "g1" "s1" "h1" sheetOne
      "r2" 7 = Except.ok (("r1", reportRunOne, true), stateAfterRunOne, 0) := by
  have h : markService backendTriv fbUnit stateOne "g1" "s1" "h1" sheetOne
      "r1" 0 = Except.ok (("r1", reportRunOne, false), stateAfterRunOne,
        evalsRunOne.length + 3) := by
    rfl
  exact ⟨h, markService_cache_idempotent backendTriv fbUnit stateOne "g1" "s1"
    "h1" sheetOne "r1" 0 "r1" reportRunOne stateAfterRunOne
    (evalsRunOne.length + 3) h backendTriv fbUnit sheetOne "r2" 7⟩

/-- C8 counterexample: the colon-joined cache key does not distinguish all
triples. The triples (a:b, c, h) and (a, b:c, h) differ in every component
that contains text, yet both join to the key a:b:c:h, so registering a
report under the first makes the cache lookup for the second return that
report. -/
theorem cacheKey_collision :
    (("a:b", "c", "h") : String × String × String) ≠ ("a", "b:c", "h") ∧
    cacheKey "a:b" "c" "h" = cacheKey "a" "b:c" "h" ∧
    checkAnswerSheetCache
      (registerAnswerSheet stateEmpty "a:b" "c" "h" "r1") "a" "b:c" "h" =
      some "r1" := by
  refine ⟨by decide, by rfl, by rfl⟩

/-- Helper: splitting a character list at a separator absent from both
prefixes is unambiguous. -/
theorem append_sep_inj (a1 : List Char) :
    ∀ (a2 b1 b2 : List Char), (':' : Char) ∉ a1 → (':' : Char) ∉ a2 →
      a1 ++ ':' :: b1 = a2 ++ ':' :: b2 → a1 = a2 ∧ b1 = b2 := by
  induction a1 with
  | nil =>
    intro a2 b1 b2 _ h2 h
    cases a2 with
    | nil =>
      simp only [List.nil_append, List.cons.injEq] at h
      exact ⟨rfl, h.2⟩
    | cons y ys =>
      simp only [List.nil_append, List.cons_append, List.cons.injEq] at h
      exact absurd (h.1 ▸ List.mem_cons_self y ys) h2
  | cons x xs ih =>
    intro a2 b1 b2 h1 h2 h
    cases a2 with
    | nil =>
      simp only [List.nil_append, List.cons_append, List.cons.injEq] at h
      exact absurd (h.1 ▸ List.mem_cons_self x xs) h1
    | cons y ys =>
      simp only [List.cons_append, List.cons.injEq] at h
      obtain ⟨hxy, hrest⟩ := h
      have h1x : (':' : Char) ∉ xs := fun hm => h1 (List.mem_cons_of_mem x hm)
      have h2y : (':' : Char) ∉ ys := fun hm => h2 (List.mem_cons_of_mem y hm)
      obtain ⟨ha, hb⟩ := ih ys b1 b2 h1x h2y hrest
      exact ⟨by rw [hxy, ha], hb⟩

/-- Helper: on identifiers free of the colon separator the cache key is
injective (the hash component needs no restriction). -/
theorem cacheKey_inj (g1 s1 h1 g2 s2 h2 : String)
    (hg1 : (':' : Char) ∉ g1.data) (hg2 : (':' : Char) ∉ g2.data)
    (hs1 : (':' : Char) ∉ s1.data) (hs2 : (':' : Char) ∉ s2.data)
    (h : cacheKey g1 s1 h1 = cacheKey g2 s2 h2) :
    g1 = g2 ∧ s1 = s2 ∧ h1 = h2 := by
  have hd := congrArg String.data h
  simp only [cacheKey, String.data_append] at hd
  simp only [List.append_assoc, List.singleton_append] at hd
  obtain ⟨hg, hrest⟩ := append_sep_inj g1.data g2.data _ _ hg1 hg2 hd
  obtain ⟨hs, hh⟩ := append_sep_inj s1.data s2.data _ _ hs1 hs2 hrest
  exact ⟨String.ext hg, String.ext hs, String.ext hh⟩

/-- C8 (amended): the answer-sheet cache distinguishes all triples whose
guide and student identifiers are free of the colon character that joins
the key (the hash component is a hex digest and never contains one): for
two such triples that differ, the keys differ and registering a report
under one leaves the cache lookup for the other unchanged. Triples whose
identifiers contain colons can collide, as the counterexample shows. -/
theorem cache_distinguishes_colon_free {φ : Type} (st : ServiceState φ)
    (g1 s1 h1 g2 s2 h2 rid : String)
    (hg1 : (':' : Char) ∉ g1.data) (hg2 : (':' : Char) ∉ g2.data)
    (hs1 : (':' : Char) ∉ s1.data) (hs2 : (':' : Char) ∉ s2.data)
    (hne : ((g1, s1, h1) : String × String × String) ≠ (g2, s2, h2)) :
    cacheKey g1 s1 h1 ≠ cacheKey g2 s2 h2 ∧
    checkAnswerSheetCache (registerAnswerSheet st g1 s1 h1 rid) g2 s2 h2 =
      checkAnswerSheetCache st g2 s2 h2 := by
  have hk : cacheKey g1 s1 h1 ≠ cacheKey g2 s2 h2 := by
    intro he
    obtain ⟨ha, hb, hc⟩ := cacheKey_inj g1 s1 h1 g2 s2 h2 hg1 hg2 hs1 hs2 he
    exact hne (by rw [ha, hb, hc])
  refine ⟨hk, ?_⟩
  simp only [checkAnswerSheetCache, registerAnswerSheet, alistLookup]
  rw [if_neg hk]

/-- C8 witness: the amended statement instantiated at colon-free
identifiers. -/
theorem cache_distinguishes_colon_free_witness :
    ((':' : Char) ∉ ("g1" : String).data ∧ (':' : Char) ∉ ("g2" : String).data ∧
     (':' : Char) ∉ ("s1" : String).data ∧ (':' : Char) ∉ ("s2" : String).data ∧
     (("g1", "s1", "h1") : String × String × String) ≠ ("g2", "s2", "h2")) ∧
    cacheKey "g1" "s1" "h1" ≠ cacheKey "g2" "s2" "h2" ∧
    checkAnswerSheetCache
      (registerAnswerSheet stateEmpty "g1" "s1" "h1" "r9") "g2" "s2" "h2" =
      checkAnswerSheetCache stateEmpty "g2" "s2" "h2" := by
  refine ⟨⟨by decide, by decide, by decide, by decide, by decide⟩, ?_⟩
  exact cache_distinguishes_colon_free stateEmpty "g1" "s1" "h1" "g2" "s2"
    "h2" "r9" (by decide) (by decide) (by decide) (by decide) (by decide)

end AnswerMarker
